import Mathlib

/-!
Verification of the `rpw` wrapper library (`rpw/base.py`, `rpw/db/element.py`).

The library wraps live objects of an external CAD object model (Revit `DB.*`
types).  We embed the Python code shallowly:

* Python runtime types become `PyType` (a name plus the method-resolution
  order used by `isinstance` / `inspect.getmro`);
* the wrapper classes of `rpw.db` become the enumeration `WrapperClass`,
  together with their declared `_revit_object_class` tags and
  `_collector_params` dictionaries;
* the redirecting factory `Element.__new__` becomes `elementNew`;
* attribute reads/writes of `BaseObjectWrapper` become explicit state
  passing over a small heap of external objects, so that reference
  identity (`unwrap`) and in-place mutation are faithfully represented;
  a wrapper instance is its one `__dict__`, a single namespace holding
  the `_revit_object` slot alongside any wrapper-local attributes, so a
  local-store write to the name `_revit_object` itself overwrites the
  slot, exactly as `object.__setattr__` does in the code;
* the live Revit document consulted by the derived properties of
  `Family` / `Symbol` / `Category` becomes the record `RevitDoc`;
* Python exceptions become explicit result constructors; the unbounded
  recursion in `Family.name` is made visible with a fuel parameter whose
  exhaustion models CPython's `RecursionError`.
-/

/-- A Python runtime type: its name and its method resolution order
(`inspect.getmro`), given as the list of class names, the type itself
included.  `DB.*` names stand for the external Revit API classes. -/
structure PyType where
  name : String
  mro : List String
  deriving Repr, DecidableEq

/-- `isinstance(o, C)` for an object of runtime type `t`: `C` occurs in the
mro of `t`. -/
def pyIsinstance (t : PyType) (c : String) : Bool :=
  t.mro.contains c

/-- The wrapper classes defined in `rpw/db/element.py` that carry a
`_revit_object_class` tag.  (Other members of the `rpw.db` module namespace
have no `_revit_object_class` attribute, so `getattr(cls,
'_revit_object_class', None)` yields `None` for them and they can never win
the dispatch loop; they are therefore omitted from the model.) -/
inductive WrapperClass
  | Element
  | Instance
  | Symbol
  | Family
  | Category
  deriving Repr, DecidableEq

/-- The Python class name of each wrapper class (`cls.__name__`). -/
def wrapperClassName : WrapperClass → String
  | .Element => "Element"
  | .Instance => "Instance"
  | .Symbol => "Symbol"
  | .Family => "Family"
  | .Category => "Category"

/-- The declared exact-match tag `_revit_object_class` of each wrapper
class, by the name of the external type it refers to. -/
def revitObjectClass : WrapperClass → String
  | .Element => "DB.Element"
  | .Instance => "DB.FamilyInstance"
  | .Symbol => "DB.FamilySymbol"
  | .Family => "DB.Family"
  | .Category => "DB.Category"

/-- `inspect.getmembers(rpw.db, inspect.isclass)`: the `(name, class)`
pairs of the tagged wrapper classes, sorted alphabetically by name as
`getmembers` sorts them. -/
def definedWrapperClasses : List (String × WrapperClass) :=
  [("Category", .Category),
   ("Element", .Element),
   ("Family", .Family),
   ("Instance", .Instance),
   ("Symbol", .Symbol)]

/-- Outcome of `Element.__new__` (the redirecting factory constructor). -/
inductive NewResult
  | instanceOf (c : WrapperClass)
  | typeError (expected : String) (got : String)
  | rpwException (msg : String)
  deriving Repr, DecidableEq

/-- `Element.__new__(cls, element)` from `rpw/db/element.py`.

The factory first applies the pre-check: when `cls` is a non-generic
subclass and the element is not an `isinstance` of that subclass's
`_revit_object_class`, it raises `RPW_TypeError`.  It then scans the
enumerated wrapper classes for one whose tag `is` the element's exact
runtime type (`type(element) is cls._revit_object_class`); the first match
is instantiated.  With no match, the element is wrapped by the requested
class `cls` itself when `DB.Element` occurs in the element's mro, and
otherwise `RPW_Exception` is raised naming the element's type. -/
def elementNew (cls : WrapperClass) (ty : PyType) : NewResult :=
  if cls ≠ WrapperClass.Element ∧ ¬ pyIsinstance ty (revitObjectClass cls) then
    .typeError (revitObjectClass cls) ty.name
  else
    match definedWrapperClasses.find? (fun p => ty.name = revitObjectClass p.2) with
    | some p => .instanceOf p.2
    | none =>
      if ty.mro.contains "DB.Element" then
        .instanceOf cls
      else
        .rpwException ("Factory does not support type: " ++ ty.name)

/-- A Python reference to an external object. -/
abbrev Ref := Nat

/-- A Python value as stored in an attribute or a `__dict__` entry: a
reference to an external object on the heap, or an immediate value
(booleans and strings appear in the library's own tests and docstrings;
any other immediate value is modelled opaquely by a natural number). -/
inductive PyVal
  | boolVal (b : Bool)
  | natVal (n : Nat)
  | strVal (s : String)
  | refVal (r : Ref)
  deriving Repr, DecidableEq

/-- A live external object: its runtime type together with the attributes
it exposes (the attributes `hasattr` sees, with their current values). -/
structure PyObject where
  ty : PyType
  attrs : List (String × PyVal)
  deriving Repr, DecidableEq

/-- The store of live external objects.  Wrappers hold `Ref`s into it, so
reference identity and in-place mutation are represented faithfully. -/
structure Heap where
  objs : Ref → PyObject

/-- Dereference. -/
def Heap.get (h : Heap) (r : Ref) : PyObject := h.objs r

/-- Replace the object behind a reference (in-place mutation of the
external object all aliases observe). -/
def Heap.set (h : Heap) (r : Ref) (o : PyObject) : Heap :=
  ⟨fun x => if x = r then o else h.objs x⟩

/-- `hasattr(o, a)`. -/
def pyHasattr (o : PyObject) (a : String) : Bool :=
  (o.attrs.lookup a).isSome

/-- `o.__setattr__(a, v)` on an external object: the new binding shadows
any previous one for attribute lookups. -/
def pyObjectSetattr (o : PyObject) (a : String) (v : PyVal) : PyObject :=
  { o with attrs := (a, v) :: o.attrs }

/-- A `BaseObjectWrapper` instance, given by its one instance `__dict__`:
a single namespace in which the `_revit_object` slot (holding the
reference to the wrapped object from construction on) lives alongside any
wrapper-local attributes.  New bindings are consed in front and shadow
older ones for lookups, as a dict assignment does. -/
structure Wrapper where
  dict : List (String × PyVal)
  deriving Repr, DecidableEq

/-- Outcome of `BaseObjectWrapper.__init__`. -/
inductive InitResult
  | ok (w : Wrapper)
  | typeError (expected : String) (got : String)
  deriving Repr, DecidableEq

/-- `BaseObjectWrapper.__init__(revit_object, enforce_type=None)`: when an
`enforce_type` is supplied (a class object is always truthy) and the
object is not an `isinstance` of it, `RPW_TypeError` is raised; otherwise
`object.__setattr__(self, '_revit_object', revit_object)` stores the
reference in a fresh instance `__dict__`. -/
def baseObjectWrapperInit (h : Heap) (r : Ref) (enforceType : Option String) :
    InitResult :=
  match enforceType with
  | some c =>
    if ¬ pyIsinstance (h.get r).ty c then
      .typeError c (h.get r).ty.name
    else
      .ok ⟨[("_revit_object", .refVal r)]⟩
  | none => .ok ⟨[("_revit_object", .refVal r)]⟩

/-- `BaseObjectWrapper.unwrap()`: the attribute read `self._revit_object`,
i.e. the `_revit_object` entry of the instance `__dict__` (present from
construction on, but writable like any other entry of the namespace). -/
def unwrap (w : Wrapper) : Option PyVal :=
  w.dict.lookup "_revit_object"

/-- Reading attribute `a` on a wrapper: Python first consults the instance
`__dict__` (slot and wrapper-local attributes alike); only when that
lookup fails is `__getattr__` invoked, which forwards `getattr` to the
value of the `_revit_object` slot.  `none` models the propagated
`AttributeError`; an immediate value in the slot exposes none of the
attribute names modelled here. -/
def wrapperGetattr (h : Heap) (w : Wrapper) (a : String) : Option PyVal :=
  match w.dict.lookup a with
  | some v => some v
  | none =>
    match w.dict.lookup "_revit_object" with
    | some (.refVal r) => ((h.get r).attrs).lookup a
    | _ => none

/-- `BaseObjectWrapper.__setattr__(attr, value)`: when the value of the
`_revit_object` slot exposes the attribute, the write is forwarded to it
(mutating the shared external object); otherwise `object.__setattr__`
stores the value in the wrapper's own `__dict__` — the same namespace
that holds the slot, so a local store to the name `_revit_object` itself
overwrites the slot.  An immediate value in the slot exposes none of the
attribute names modelled here, so writes then always store locally. -/
def wrapperSetattr (h : Heap) (w : Wrapper) (a : String) (v : PyVal) :
    Heap × Wrapper :=
  match w.dict.lookup "_revit_object" with
  | some (.refVal r) =>
    if pyHasattr (h.get r) a then
      (h.set r (pyObjectSetattr (h.get r) a v), w)
    else
      (h, ⟨(a, v) :: w.dict⟩)
  | _ => (h, ⟨(a, v) :: w.dict⟩)

/-- The format string of `BaseObjectWrapper.__repr__`. -/
def reprFormat (clsName data : String) : String :=
  "<RPW_" ++ clsName ++ ": " ++ data ++ ">"

/-- `self._revit_object.__class__.__name__`: the class name of the value
held in the `_revit_object` slot.  The slot exists from construction on;
a missing slot is unreachable after construction and rendered as the
empty name. -/
def wrappedClassName (h : Heap) (w : Wrapper) : String :=
  match w.dict.lookup "_revit_object" with
  | some (.refVal r) => (h.get r).ty.name
  | some (.boolVal _) => "bool"
  | some (.natVal _) => "int"
  | some (.strVal _) => "str"
  | none => ""

/-- `BaseObjectWrapper.__repr__(data='')`: with empty data the wrapped
object's class name is shown; the result is always
`<RPW_{class}: {data}>` rendered for the wrapper's own class name. -/
def baseObjectWrapperRepr (h : Heap) (w : Wrapper) (clsName : String)
    (data : String) : String :=
  if data = "" then
    reprFormat clsName (wrappedClassName h w)
  else
    reprFormat clsName data

/-- String rendering of an attribute value, as interpolated into repr
data. -/
def pyValStr : PyVal → String
  | .boolVal true => "True"
  | .boolVal false => "False"
  | .natVal n => toString n
  | .strVal s => s
  | .refVal r => "<object at " ++ toString r ++ ">"

/-- `Element.__repr__(data={})`: with no data supplied it shows
`getattr(self._revit_object, 'Id', None)` under the `id` key; the data
dictionary (a one-entry dict, hence always truthy) is rendered to a string
when interpolated by the base repr, so the base repr's default branch is
never taken here.  `getattr(..., 'Id', None)` on a slot value exposing no
`Id` (immediate values included) yields `None`. -/
def elementRepr (h : Heap) (w : Wrapper) : String :=
  let idStr :=
    match w.dict.lookup "_revit_object" with
    | some (.refVal r) =>
      match (h.get r).attrs.lookup "Id" with
      | some v => pyValStr v
      | none => "None"
    | _ => "None"
  reprFormat "Element" ("id: " ++ idStr)

/-- A value in a collector keyword-argument dictionary: the declared
`_collector_params` hold class objects and booleans; any other value a
caller may pass is modelled opaquely by a natural number. -/
inductive CollectorValue
  | classRef (name : String)
  | boolVal (b : Bool)
  | optVal (n : Nat)
  deriving Repr, DecidableEq

/-- The `_collector_params` class attribute declared by each wrapper
class (`getattr(cls, '_collector_params', None)`): `Instance`, `Symbol`
and `Family` declare default query dictionaries; `Element` and `Category`
declare none. -/
def collectorParams : WrapperClass → Option (List (String × CollectorValue))
  | .Instance =>
    some [("of_class", .classRef "DB.FamilyInstance"), ("is_not_type", .boolVal true)]
  | .Symbol =>
    some [("of_class", .classRef "DB.FamilySymbol"), ("is_type", .boolVal true)]
  | .Family =>
    some [("of_class", .classRef "DB.Family")]
  | .Element => none
  | .Category => none

/-- `d.update(u)` on Python dictionaries, as a key-value map: keys of `u`
overwrite equal keys of `d`, all other keys of `d` are kept. -/
def dictUpdate (d u : List (String × CollectorValue)) :
    List (String × CollectorValue) :=
  d.filter (fun p => (u.lookup p.1).isNone) ++ u

/-- Outcome of `Element.collect`: the keyword dictionary handed to
`rpw.db.Collector(**kwargs)`, or the raised `RPW_Exception`. -/
inductive CollectResult
  | query (params : List (String × CollectorValue))
  | rpwException (msg : String)
  deriving Repr, DecidableEq

/-- `Element.collect(cls, **kwargs)`: when the class declares
`_collector_params`, runs `kwargs.update(_collector_params)` and issues
`rpw.db.Collector(**kwargs)`; otherwise raises `RPW_Exception`. -/
def collect (cls : WrapperClass) (kwargs : List (String × CollectorValue)) :
    CollectResult :=
  match collectorParams cls with
  | some ps => .query (dictUpdate kwargs ps)
  | none => .rpwException ("Wrapper cannot collect by class: " ++ wrapperClassName cls)

/-- The live document and external object model consulted by the derived
properties of `Family`, `Symbol` and `Category`.  Elements are identified
by their `ElementId` (a natural number); `doc.GetElement` resolves an id
to the element it identifies, so lists of elements are represented by the
lists of their ids.  The fields model, in order: `GetFamilySymbolIds` on a
family, `Collector(symbol=s, is_not_type=True).elements` (the instances of
a symbol), the id of `symbol.Family`, the value of the symbol's
`SYMBOL_FAMILY_NAME_PARAM` built-in parameter, and
`Collector(of_category=c, is_type=True).elements` (the symbols of a
category). -/
structure RevitDoc where
  familySymbolIds : Nat → List Nat
  symbolInstances : Nat → List Nat
  symbolFamily : Nat → Nat
  symbolFamilyNameParam : Nat → String
  categorySymbols : Nat → List Nat

/-- `Family.symbols`: `doc.GetElement(i)` for each id in
`GetFamilySymbolIds()`. -/
def familySymbols (d : RevitDoc) (f : Nat) : List Nat :=
  d.familySymbolIds f

/-- Outcome of a Python computation that may raise: a value, a raised
`RPW_Exception`, or CPython's `RecursionError` (unbounded recursion). -/
inductive PyResult (α : Type)
  | ok (a : α)
  | rpwException (msg : String)
  | recursionError
  deriving Repr, DecidableEq

/-- `Family.name`: reads `SYMBOL_FAMILY_NAME_PARAM` through the family's
first symbol (`self.symbols[0]`).  On a family with no symbols the
`except IndexError` branch formats `self.name` into the error message,
which re-enters this very property getter; the fuel argument bounds that
re-entrancy, its exhaustion modelling CPython's `RecursionError`. -/
def familyName (d : RevitDoc) (f : Nat) : Nat → PyResult String
  | 0 => .recursionError
  | fuel + 1 =>
    match (familySymbols d f).head? with
    | some s => .ok (d.symbolFamilyNameParam s)
    | none =>
      match familyName d f fuel with
      | .ok n => .rpwException ("Family [" ++ n ++ "] has no symbols")
      | .rpwException m => .rpwException m
      | .recursionError => .recursionError

/-- `Family.instances`: starts from `instances = []` and runs
`instances.append(symbol_instances)` for each symbol, where each
`symbol_instances` is itself the list `Element.Factory(symbol).instances`
— so the result is a list of per-symbol lists. -/
def familyInstances (d : RevitDoc) (f : Nat) : List (List Nat) :=
  (familySymbols d f).map (fun s => d.symbolInstances s)

/-- Modelled from the spec: "instances = flatten instances across all
symbols" — the single flat list of instances that the spec (and the
docstring's `[DB.FamilyInstance]` return type) describe. -/
def familyInstancesSpec (d : RevitDoc) (f : Nat) : List Nat :=
  ((familySymbols d f).map (fun s => d.symbolInstances s)).flatten

/-- `Category.families`: walks the category's symbols, adds
`Element.Factory(symbol).family.Id` of each into a Python `set`, and
resolves each collected id with `doc.GetElement`.  The `set` of ids is
modelled by deduplicating the id list. -/
def categoryFamilies (d : RevitDoc) (c : Nat) : List Nat :=
  ((d.categorySymbols c).map (fun s => d.symbolFamily s)).dedup

/-- `Family.__repr__`: formats `{'name': self.name}` through
`Element.__repr__` into the base repr's format string; computing
`self.name` queries the live model and its failures propagate. -/
def familyRepr (d : RevitDoc) (f : Nat) (fuel : Nat) : PyResult String :=
  match familyName d f fuel with
  | .ok n => .ok (reprFormat "Family" ("name: " ++ n))
  | .rpwException m => .rpwException m
  | .recursionError => .recursionError

/-! ### Concrete test fixtures

Small concrete instances of the model, used by the witness and
counterexample theorems below. -/

/-- The runtime type of a `DB.Family` element. -/
def famTy : PyType :=
  ⟨"DB.Family", ["DB.Family", "DB.Element", "object"]⟩

/-- The runtime type of a `DB.Wall` element: a `DB.Element` descendant
with no wrapper class of its own. -/
def wallTy : PyType :=
  ⟨"DB.Wall", ["DB.Wall", "DB.HostObject", "DB.Element", "object"]⟩

/-- The runtime type of a Python `str`: unrelated to `DB.Element`. -/
def strTy : PyType :=
  ⟨"str", ["str", "object"]⟩

/-- A wall element exposing a `Pinned` flag and an `Id`. -/
def wallObj : PyObject :=
  ⟨wallTy, [("Pinned", .boolVal false), ("Id", .natVal 42)]⟩

/-- A heap whose reference `0` holds `wallObj`. -/
def heap0 : Heap :=
  ⟨fun _ => wallObj⟩

/-- A wrapper freshly constructed around reference `0`: its `__dict__`
holds only the `_revit_object` slot. -/
def w0 : Wrapper :=
  ⟨[("_revit_object", .refVal 0)]⟩

/-- A heap whose reference `0` holds a `DB.Family` element. -/
def heapFam : Heap :=
  ⟨fun _ => ⟨famTy, [("Id", .natVal 7)]⟩⟩

/-- A document in which family `0` owns symbols `1` and `2`, symbol `1`
has one placed instance and symbol `2` has two, and every symbol reports
the family name `Desk`. -/
def docTwoSymbols : RevitDoc :=
  ⟨fun f => if f = 0 then [1, 2] else [],
   fun s => if s = 1 then [10] else if s = 2 then [20, 21] else [],
   fun _ => 0,
   fun _ => "Desk",
   fun _ => []⟩

/-- A document in which every family owns zero symbols. -/
def docNoSymbols : RevitDoc :=
  ⟨fun _ => [], fun _ => [], fun _ => 0, fun _ => "", fun _ => []⟩

/-! ### Helper lemmas -/

/-- On a family with zero symbols, `Family.name` exhausts any amount of
fuel: each round of the getter re-enters itself while formatting its own
error message. -/
theorem familyName_no_symbols (d : RevitDoc) (f : Nat)
    (hempty : familySymbols d f = []) :
    ∀ fuel, familyName d f fuel = .recursionError := by
  intro fuel
  induction fuel with
  | zero => rfl
  | succ n ih => simp [familyName, hempty, ih]

/-! ### Claims -/

/-- C1: For every external object whose exact runtime type equals the
declared exact-match type tag (`_revit_object_class`) of some wrapper
subclass enumerated from the wrapper module, constructing `Element(o)`
returns an instance of that specific subclass, even though the generic
`Element` class was the one invoked (redirecting factory constructor). -/
theorem elementNew_dispatches_to_tagged_class (ty : PyType) (n : String)
    (wc : WrapperClass) (hmem : (n, wc) ∈ definedWrapperClasses)
    (htag : revitObjectClass wc = ty.name) :
    elementNew .Element ty = .instanceOf wc := by
  obtain ⟨nm, mro⟩ := ty
  dsimp only at htag
  subst htag
  fin_cases hmem <;>
    simp [elementNew, definedWrapperClasses, revitObjectClass, List.find?]

/-- Witness for C1: a raw object of exact runtime type `DB.Family`,
wrapped through the generic `Element`, comes back as a `Family`. -/
theorem elementNew_dispatches_to_tagged_class_witness :
    elementNew .Element famTy = .instanceOf .Family :=
  elementNew_dispatches_to_tagged_class famTy "Family" .Family (by decide) (by decide)

/-- C2: For every external object whose exact runtime type matches no
declared subclass tag: if its runtime type is a descendant of
`DB.Element`, `Element(o)` succeeds and yields the generic `Element`
wrapper; otherwise `Element(o)` fails with the `RPW_Exception` naming the
object's actual runtime type. -/
theorem elementNew_fallback (ty : PyType)
    (hno : ∀ p ∈ definedWrapperClasses, ty.name ≠ revitObjectClass p.2) :
    (ty.mro.contains "DB.Element" = true →
      elementNew .Element ty = .instanceOf .Element) ∧
    (ty.mro.contains "DB.Element" = false →
      elementNew .Element ty =
        .rpwException ("Factory does not support type: " ++ ty.name)) := by
  have h1 : ty.name ≠ "DB.Category" :=
    hno ("Category", .Category) (by simp [definedWrapperClasses])
  have h2 : ty.name ≠ "DB.Element" :=
    hno ("Element", .Element) (by simp [definedWrapperClasses])
  have h3 : ty.name ≠ "DB.Family" :=
    hno ("Family", .Family) (by simp [definedWrapperClasses])
  have h4 : ty.name ≠ "DB.FamilyInstance" :=
    hno ("Instance", .Instance) (by simp [definedWrapperClasses])
  have h5 : ty.name ≠ "DB.FamilySymbol" :=
    hno ("Symbol", .Symbol) (by simp [definedWrapperClasses])
  have hmem := fun hm : ty.mro.contains "DB.Element" = true => by simpa using hm
  constructor <;> intro hm <;>
    simp [elementNew, definedWrapperClasses, revitObjectClass, List.find?,
      h1, h2, h3, h4, h5, hm] <;>
    first
    | exact hmem hm
    | simpa using hm

/-- Witness for C2: a `DB.Wall` (untagged, descends from `DB.Element`)
yields the generic wrapper; a `str` (untagged, unrelated) raises. -/
theorem elementNew_fallback_witness :
    elementNew .Element wallTy = .instanceOf .Element ∧
    elementNew .Element strTy =
      .rpwException ("Factory does not support type: " ++ strTy.name) :=
  ⟨(elementNew_fallback wallTy (by decide)).1 (by decide),
   (elementNew_fallback strTy (by decide)).2 (by decide)⟩

/-- C3: `collect()` on a wrapper class with no declared default query
specification (`Element`, `Category`) raises; on a class with one,
`collect(**kwargs)` merges the caller-supplied filters with the declared
defaults.  The claim says the caller-supplied filters override the
defaults; the code runs `kwargs.update(_collector_params)`, so on a key
conflict the declared default overwrites the caller-supplied filter:
`Instance.collect(is_not_type=False)` still queries with
`is_not_type=True`, contradicting the method's own docstring ("These can
be overriden by passing keyword args"). -/
theorem collect_default_overwrites_caller :
    collect .Element [] = .rpwException "Wrapper cannot collect by class: Element" ∧
    collect .Category [] = .rpwException "Wrapper cannot collect by class: Category" ∧
    collect .Instance [("is_not_type", .boolVal false)] =
      .query [("of_class", .classRef "DB.FamilyInstance"),
              ("is_not_type", .boolVal true)] ∧
    (match collect .Instance [("is_not_type", .boolVal false)] with
     | .query q => q.lookup "is_not_type"
     | .rpwException _ => none) = some (.boolVal true) := by
  refine ⟨rfl, rfl, ?_, ?_⟩ <;> decide

/-- C4: writing attribute `a` on a wrapper whose `_revit_object` slot
holds the (usual) reference to the wrapped object: when the wrapped
object exposes `a`, the write is forwarded to the wrapped object —
afterwards the value is observable through `unwrap()` (the wrapper, and
with it the reference `unwrap` returns, is untouched, and the heap at
that reference holds the new value) and no local attribute is created on
the wrapper; when the wrapped object does not expose `a`, the heap (hence
the wrapped object) is untouched and the value is stored only in the
wrapper's own `__dict__`. -/
theorem wrapperSetattr_forward_or_local (h : Heap) (w : Wrapper) (r : Ref)
    (a : String) (v : PyVal) (hslot : unwrap w = some (.refVal r)) :
    (pyHasattr (h.get r) a = true →
      ((wrapperSetattr h w a v).1.get r).attrs.lookup a = some v ∧
      (wrapperSetattr h w a v).2 = w) ∧
    (pyHasattr (h.get r) a = false →
      (wrapperSetattr h w a v).1 = h ∧
      (wrapperSetattr h w a v).2.dict = (a, v) :: w.dict ∧
      (wrapperSetattr h w a v).2.dict.lookup a = some v) := by
  unfold unwrap at hslot
  constructor <;> intro hcase <;>
    simp only [Heap.get] at hcase <;>
    simp [wrapperSetattr, hslot, hcase, Heap.get, Heap.set, pyObjectSetattr,
      List.lookup]

/-- Witness for C4: `w.Pinned = True` on a wall exposing `Pinned` mutates
the wall seen through `unwrap()` and leaves the wrapper unchanged. -/
theorem wrapperSetattr_forward_or_local_witness :
    ((wrapperSetattr heap0 w0 "Pinned" (.boolVal true)).1.get 0).attrs.lookup
        "Pinned" = some (.boolVal true) ∧
    (wrapperSetattr heap0 w0 "Pinned" (.boolVal true)).2 = w0 :=
  (wrapperSetattr_forward_or_local heap0 w0 0 "Pinned" (.boolVal true)
    (by decide)).1 (by decide)

/-- Counterexample to C5 as stated: the stored wrapped-object reference
can be reassigned by a wrapper operation.  After constructing a wrapper
around reference `0` (whose wall object does not expose an attribute
named `_revit_object`), the wrapper's own `__setattr__` with attribute
name `_revit_object` takes the local-store branch, which writes into the
same instance `__dict__` that holds the slot — afterwards `unwrap()`
returns the newly written value, not the construction reference. -/
theorem unwrap_slot_reassigned_by_setattr :
    baseObjectWrapperInit heap0 0 none = .ok w0 ∧
    unwrap w0 = some (.refVal 0) ∧
    (wrapperSetattr heap0 w0 "_revit_object" (.natVal 99)).1 = heap0 ∧
    (wrapperSetattr heap0 w0 "_revit_object" (.natVal 99)).2.dict =
      ("_revit_object", .natVal 99) :: w0.dict ∧
    unwrap (wrapperSetattr heap0 w0 "_revit_object" (.natVal 99)).2 =
      some (.natVal 99) := by
  refine ⟨rfl, rfl, rfl, ?_, ?_⟩ <;> decide

/-- C5 amended: a successfully constructed wrapper holds the construction
reference in its `_revit_object` slot and `unwrap()` returns exactly it
(identity, not a copy); the slot is never reassigned by any wrapper
operation other than a `__setattr__` whose attribute name is
`_revit_object` itself and which takes the local-store branch: every
write to a different attribute name preserves it, as does a write to
`_revit_object` that is forwarded because the wrapped object exposes that
name.  (The stated exception is exactly the one the counterexample
forces: the slot shares the instance `__dict__` with local stores.) -/
theorem unwrap_returns_construction_object (h : Heap) (r : Ref)
    (e : Option String) (w : Wrapper)
    (hok : baseObjectWrapperInit h r e = .ok w) :
    unwrap w = some (.refVal r) ∧
    (∀ (h2 : Heap) (w2 : Wrapper) (a : String) (v : PyVal),
      a ≠ "_revit_object" →
      unwrap (wrapperSetattr h2 w2 a v).2 = unwrap w2) ∧
    (∀ (h2 : Heap) (w2 : Wrapper) (r2 : Ref) (v : PyVal),
      unwrap w2 = some (.refVal r2) →
      pyHasattr (h2.get r2) "_revit_object" = true →
      unwrap (wrapperSetattr h2 w2 "_revit_object" v).2 = unwrap w2) := by
  refine ⟨?_, ?_, ?_⟩
  · cases e with
    | none =>
      dsimp only [baseObjectWrapperInit] at hok
      cases hok
      rfl
    | some c =>
      dsimp only [baseObjectWrapperInit] at hok
      split at hok
      · cases hok
      · cases hok
        rfl
  · intro h2 w2 a v ha
    have hba : ("_revit_object" == a) = false :=
      beq_eq_false_iff_ne.mpr (Ne.symm ha)
    have hskip : ∀ d : List (String × PyVal),
        List.lookup "_revit_object" ((a, v) :: d) =
          List.lookup "_revit_object" d := by
      intro d
      simp [List.lookup, hba]
    unfold wrapperSetattr unwrap
    cases hs : w2.dict.lookup "_revit_object" with
    | none => exact (hskip w2.dict).trans hs
    | some pv =>
      cases pv with
      | refVal r3 =>
        dsimp only
        split
        · exact hs
        · exact (hskip w2.dict).trans hs
      | boolVal b => exact (hskip w2.dict).trans hs
      | natVal n => exact (hskip w2.dict).trans hs
      | strVal s => exact (hskip w2.dict).trans hs
  · intro h2 w2 r2 v hs hhas
    unfold unwrap at hs ⊢
    unfold wrapperSetattr
    rw [hs]
    simp [hhas]
    exact hs

/-- Witness for C5 amended: constructing around reference `0`, `unwrap()`
returns the reference to the wall, and writing `Pinned` preserves it. -/
theorem unwrap_returns_construction_object_witness :
    unwrap w0 = some (.refVal 0) ∧
    unwrap (wrapperSetattr heap0 w0 "Pinned" (.boolVal true)).2 = unwrap w0 :=
  ⟨(unwrap_returns_construction_object heap0 0 none w0 rfl).1,
   (unwrap_returns_construction_object heap0 0 none w0 rfl).2.1 heap0 w0
     "Pinned" (.boolVal true) (by decide)⟩

/-- C6: the claim says reading `name` of a family owning zero symbols
raises a propagated domain error (`RPW_Exception` from the
`except IndexError` branch).  In fact that branch formats `self.name`
into its error message, which re-enters the `name` getter: the code
recurses without bound for every amount of fuel — it raises
`RecursionError`, and the domain error is never produced. -/
theorem familyName_zero_symbols_never_domain_error (d : RevitDoc) (f : Nat)
    (fuel : Nat) (hempty : familySymbols d f = []) :
    familyName d f fuel = .recursionError ∧
    ∀ m, familyName d f fuel ≠ .rpwException m := by
  have h := familyName_no_symbols d f hempty fuel
  exact ⟨h, fun m hm => by rw [h] at hm; cases hm⟩

/-- Witness for C6: a concrete document whose family `0` owns no symbols. -/
theorem familyName_zero_symbols_never_domain_error_witness :
    familyName docNoSymbols 0 7 = .recursionError ∧
    ∀ m, familyName docNoSymbols 0 7 ≠ .rpwException m :=
  familyName_zero_symbols_never_domain_error docNoSymbols 0 7 (by rfl)

/-- Counterexample to C7 as stated: a `Family` wrapper is successfully
constructed around a zero-symbol `DB.Family` object (the factory selects
`Family` for it and base construction succeeds — construction never looks
at symbols), yet `repr` of that wrapper does not return a string: its
data computes `self.name`, which recurses without bound. -/
theorem familyRepr_zero_symbols_raises :
    elementNew .Element famTy = .instanceOf .Family ∧
    baseObjectWrapperInit heapFam 0 none =
      .ok ⟨[("_revit_object", .refVal 0)]⟩ ∧
    familyRepr docNoSymbols 0 100 = .recursionError := by
  refine ⟨by decide, rfl, ?_⟩
  unfold familyRepr
  rw [familyName_no_symbols docNoSymbols 0 rfl 100]

/-- C7 amended: `repr` has the uniform form `<RPW_Class: data>` (the
wrapped object's class name when no data is supplied) and never raises
for the base wrapper and for the generic `Element`; a subclass whose
descriptive data is computed from the live model (`Family`) returns the
same form whenever that computation succeeds, and propagates the
computation's failure otherwise (e.g. on a family with zero symbols). -/
theorem repr_uniform_form :
    (∀ (h : Heap) (w : Wrapper) (c : String),
      baseObjectWrapperRepr h w c "" =
        "<RPW_" ++ c ++ ": " ++ wrappedClassName h w ++ ">") ∧
    (∀ (h : Heap) (w : Wrapper) (c data : String), data ≠ "" →
      baseObjectWrapperRepr h w c data = "<RPW_" ++ c ++ ": " ++ data ++ ">") ∧
    (∀ (h : Heap) (w : Wrapper), ∃ s,
      elementRepr h w = reprFormat "Element" ("id: " ++ s)) ∧
    (∀ (d : RevitDoc) (f fuel : Nat) (n : String),
      familyName d f fuel = .ok n →
      familyRepr d f fuel = .ok (reprFormat "Family" ("name: " ++ n))) := by
  refine ⟨?_, ?_, ?_, ?_⟩
  · intro h w c
    simp [baseObjectWrapperRepr, reprFormat]
  · intro h w c data hd
    simp [baseObjectWrapperRepr, reprFormat, hd]
  · intro h w
    cases hs : w.dict.lookup "_revit_object" with
    | none => exact ⟨"None", by unfold elementRepr; rw [hs]⟩
    | some pv =>
      cases pv with
      | refVal r =>
        cases hx : (h.get r).attrs.lookup "Id" with
        | none => exact ⟨"None", by unfold elementRepr; rw [hs]; dsimp only; rw [hx]⟩
        | some v =>
          exact ⟨pyValStr v, by unfold elementRepr; rw [hs]; dsimp only; rw [hx]⟩
      | boolVal b => exact ⟨"None", by unfold elementRepr; rw [hs]⟩
      | natVal n => exact ⟨"None", by unfold elementRepr; rw [hs]⟩
      | strVal s => exact ⟨"None", by unfold elementRepr; rw [hs]⟩
  · intro d f fuel n hn
    unfold familyRepr
    rw [hn]

/-- Witness for C7 amended: a supplied-data base repr on a concrete
wrapper, and the repr of a family whose `name` computation succeeds. -/
theorem repr_uniform_form_witness :
    baseObjectWrapperRepr heap0 w0 "BaseObjectWrapper" "abc" =
      "<RPW_" ++ "BaseObjectWrapper" ++ ": " ++ "abc" ++ ">" ∧
    familyRepr docTwoSymbols 0 1 = .ok (reprFormat "Family" ("name: " ++ "Desk")) :=
  ⟨repr_uniform_form.2.1 heap0 w0 "BaseObjectWrapper" "abc" (by decide),
   repr_uniform_form.2.2.2 docTwoSymbols 0 1 "Desk" (by rfl)⟩

/-- C8: the claim (and the method's own docstring return type
`[DB.FamilyInstance]`) says `Family.instances` is one flat list of the
instances of all the family's symbols; the code `append`s each per-symbol
list wholesale, so the result is nested: with two symbols holding one and
two instances it returns `[[10], [20, 21]]` (two entries), not the flat
`[10, 20, 21]` (three instances) described. -/
theorem familyInstances_not_flat :
    familyInstances docTwoSymbols 0 = [[10], [20, 21]] ∧
    familyInstancesSpec docTwoSymbols 0 = [10, 20, 21] ∧
    (familyInstances docTwoSymbols 0).length = 2 ∧
    (familyInstancesSpec docTwoSymbols 0).length = 3 := by
  refine ⟨?_, ?_, ?_, ?_⟩ <;> decide

/-- C9: construction with a required type raises `RPW_TypeError` iff the
object's runtime type is not an instance of the required external type:
the base constructor guard when an `enforce_type` is supplied, and the
factory pre-check when a specific non-generic subclass is requested
directly. -/
theorem typeMismatch_iff_not_isinstance (h : Heap) (r : Ref) (c : String)
    (cls : WrapperClass) (ty : PyType) (hcls : cls ≠ WrapperClass.Element) :
    ((∃ ex got, baseObjectWrapperInit h r (some c) = .typeError ex got) ↔
      ¬ pyIsinstance (h.get r).ty c = true) ∧
    ((∃ ex got, elementNew cls ty = .typeError ex got) ↔
      ¬ pyIsinstance ty (revitObjectClass cls) = true) := by
  constructor
  · constructor
    · rintro ⟨ex, got, heq⟩ hinst
      dsimp only [baseObjectWrapperInit] at heq
      rw [if_neg (fun hcond => hcond hinst)] at heq
      cases heq
    · intro hni
      exact ⟨c, (h.get r).ty.name,
        by dsimp only [baseObjectWrapperInit]; rw [if_pos hni]⟩
  · constructor
    · rintro ⟨ex, got, heq⟩ hinst
      unfold elementNew at heq
      rw [if_neg (fun hcond => hcond.2 hinst)] at heq
      split at heq
      · cases heq
      · split at heq <;> cases heq
    · intro hni
      refine ⟨revitObjectClass cls, ty.name, ?_⟩
      unfold elementNew
      rw [if_pos ⟨hcls, hni⟩]

/-- Witness for C9: the guard at a concrete unrelated required type, and
the pre-check for `Family` requested on a wall element. -/
theorem typeMismatch_iff_not_isinstance_witness :
    ((∃ ex got, baseObjectWrapperInit heap0 0 (some "DB.Category") =
        .typeError ex got) ↔
      ¬ pyIsinstance (heap0.get 0).ty "DB.Category" = true) ∧
    ((∃ ex got, elementNew .Family wallTy = .typeError ex got) ↔
      ¬ pyIsinstance wallTy (revitObjectClass .Family) = true) :=
  typeMismatch_iff_not_isinstance heap0 0 "DB.Category" .Family wallTy (by decide)

/-- C10: `Category.families` never contains duplicate family
identifiers, and it contains exactly the identifiers of the owning
families of the category's symbols. -/
theorem categoryFamilies_no_duplicates (d : RevitDoc) (c : Nat) :
    (categoryFamilies d c).Nodup ∧
    (∀ fid, fid ∈ categoryFamilies d c ↔
      ∃ s ∈ d.categorySymbols c, d.symbolFamily s = fid) := by
  constructor
  · exact List.nodup_dedup _
  · intro fid
    simp [categoryFamilies, List.mem_dedup]
